import Mathlib

/-!
Shallow embedding of src/ibutton.cc (DS1921L iButton thermochron driver).

The source is a C program bit-banging the 1-wire protocol on a Raspberry Pi
GPIO pin.  We embed it at two levels:

* Bit level: the pure data of the bit-banging primitives `writeBit`,
  `writeByte`, `readBit`, `readByte` (src lines 195-242): the delay pair a
  write slot uses, the bit sequence a byte write emits, and the byte value a
  sequence of read-bit results assembles to.

* Byte/protocol level: the DS1921L-specific operations `oneShotConvert`,
  `verifyScratch`, `commitScratch`, `setRTC`, `clearMem`, `missionStart`
  (src lines 262-401), modelled as explicit state-passing functions over an
  environment that supplies the device's responses (the presence level
  sampled by each `reset` and the value returned by each `readByte`), and
  recording a trace of the line actions performed.

Machine integers are modelled as Nat with explicit `% 2^w` at the points
where the C code converts (uint8_t / uint16_t stores and casts); the C `int`
values that are provably in range are carried as plain Nat.  `float` results
are modelled in ℚ: every value the code produces (n/2.0 - 40.0 for a byte n,
and the sentinel -100.0) is exactly representable, so ℚ is faithful.
-/

namespace DS1921

/-! ### Bit-level transceiver (src/ibutton.cc lines 195-242) -/

/-- Delay pair (delay1, delay2) chosen by `writeBit` (src lines 195-203):
delay1 is the low-phase length in microseconds (line driven LOW), delay2 the
high-phase length; `if(b==1) { delay1 = 10; delay2 = 55; } else
{ delay1 = 65; delay2 = 5; }`. -/
def writeBitDelays (b : ℤ) : ℕ × ℕ :=
  if b = 1 then (10, 55) else (65, 5)

/-- Bit values that `writeByte` (src lines 212-222) sends on the line, in
order: the loop tests `byte & 1`, writes bit 1 or 0 accordingly, then shifts
`byte` right by one, eight times.  So the transfer is least-significant-bit
first. -/
def writeByteBitsAux : ℕ → ℕ → List ℕ
  | _, 0 => []
  | byte, n + 1 =>
      (if byte &&& 1 = 1 then 1 else 0) :: writeByteBitsAux (byte >>> 1) n

/-- The eight bits `writeByte` emits, least-significant-bit first. -/
def writeByteBits (byte : ℕ) : List ℕ :=
  writeByteBitsAux byte 8

/-- Byte assembled by `readByte` (src lines 235-242) when the i-th
`readBit` call returns `f i`: the loop performs
`byte = byte | (readBit(pin) << i)` for i = 0..7. -/
def readByteFun (f : ℕ → ℕ) : ℕ :=
  (List.range 8).foldl (fun byte i => byte ||| (f i <<< i)) 0

/-! ### Byte-level protocol model (src/ibutton.cc lines 262-401)

The protocol operations call only `reset`, `writeByte`, `readByte`,
`bcm2835_delayMicroseconds` and each other.  We model them over an
environment giving the device's responses, threading a state that counts the
resets and byte reads performed and records the trace of actions. -/

/-- A line action a protocol operation performs.  `reset` records the level
sampled during the presence window (`true` = HIGH = no device answered);
`readByte` records the value read.  The two `Call` markers are
instrumentation recording operation entry/exit of the scratchpad
verify/commit helpers, so that invocation counts and argument agreement can
be stated: `verifyRet pin addr len ok` is appended when `verifyScratch`
returns `ok`, and `commitCall pin addr len` when `commitScratch` is
entered. -/
inductive Act : Type
  | reset      (presence : Bool)
  | writeByte  (b : ℕ)
  | readByte   (b : ℕ)
  | delayUs    (n : ℕ)
  | verifyRet  (pin addr len : ℕ) (ok : Bool)
  | commitCall (pin addr len : ℕ)
  deriving DecidableEq, Repr

/-- Device-side responses: `presence k` is the level the k-th `reset` call
samples, `readVal k` the byte value the k-th `readByte` call returns. -/
structure Env : Type where
  presence : ℕ → Bool
  readVal  : ℕ → ℕ

/-- Interpreter state: resets performed, bytes read, trace so far. -/
structure S : Type where
  nr : ℕ
  nb : ℕ
  tr : List Act
  deriving DecidableEq, Repr

/-- The initial state: no line activity yet. -/
def S0 : S := ⟨0, 0, []⟩

/-- Model of `reset` (src lines 244-253): returns the level sampled after the
480µs low pulse (HIGH = 1 means no presence pulse, i.e. no device). -/
def resetOp (env : Env) (s : S) : Bool × S :=
  let b := env.presence s.nr
  (b, ⟨s.nr + 1, s.nb, s.tr ++ [Act.reset b]⟩)

/-- Model of `writeByte` (src lines 212-222) at byte granularity. -/
def writeByteOp (b : ℕ) (s : S) : S :=
  { s with tr := s.tr ++ [Act.writeByte b] }

/-- Model of `readByte` (src lines 235-242) at byte granularity: the value is
supplied by the environment. -/
def readByteOp (env : Env) (s : S) : ℕ × S :=
  let v := env.readVal s.nb
  (v, ⟨s.nr, s.nb + 1, s.tr ++ [Act.readByte v]⟩)

/-- Model of `bcm2835_delayMicroseconds(n)` inside a protocol operation. -/
def delayOp (n : ℕ) (s : S) : S :=
  { s with tr := s.tr ++ [Act.delayUs n] }

/-- Model of `writeAddr` (src lines 263-268): sends the low byte of the
16-bit address first, then the high byte. -/
def writeAddrOp (address : ℕ) (s : S) : S :=
  let byte1 := (address >>> 8) &&& 0xFF
  let byte2 := address &&& 0xFF
  writeByteOp byte1 (writeByteOp byte2 s)

/-! Command opcodes and addresses (src lines 129-182). -/

def SKIPROM : ℕ := 0xCC
def WRITESCRATCH : ℕ := 0x0F
def READSCRATCH : ℕ := 0xAA
def COPYSCRATCH : ℕ := 0x55
def READMEM : ℕ := 0xF0
def CLEARMEM : ℕ := 0x3C
def CONVERTTEMP : ℕ := 0x44
def TEMPADDR : ℕ := 0x0211
def RTCSECONDS : ℕ := 0x0200
def CONTROLREG : ℕ := 0x020E
def ENABLECLR : ℕ := 0x40

/-- The end-offset byte computed by `verifyScratch` and `commitScratch`
(src lines 301-302 and 311-312): `uint8_t endoffset = address & 0x1F;
endoffset += length - 1;`.  The `+= length - 1` is 8-bit two's-complement
wraparound, i.e. `(address & 0x1F) + length + 255 (mod 256)`. -/
def endOffset (address length : ℕ) : ℕ :=
  ((address &&& 0x1F) + length + 255) % 256

/-- Model of `verifyScratch` (src lines 294-308).  The initial `reset`
result is ignored by the source.  The address read back is assembled from
two bytes low-first through uint16_t conversions, the length byte through a
uint8_t conversion.  Returns true iff the read-back address equals the
requested one and the read-back byte equals the computed end offset. -/
def verifyScratch (env : Env) (pin address length : ℕ) (s : S) : Bool × S :=
  let s1 := (resetOp env s).2
  let s2 := writeByteOp READSCRATCH (writeByteOp SKIPROM s1)
  let p0 := readByteOp env s2
  let p1 := readByteOp env p0.2
  let returnaddress := (p0.1 % 65536) ||| (((p1.1 % 65536) <<< 8) % 65536)
  let p2 := readByteOp env p1.2
  let returnlen := p2.1 % 256
  let ok := decide (returnaddress = address ∧ returnlen = endOffset address length)
  (ok, { p2.2 with tr := p2.2.tr ++ [Act.verifyRet pin address length ok] })

/-- Model of `commitScratch` (src lines 310-319): reset (result ignored),
skip-ROM, copy-scratchpad opcode, the address, the end-offset byte, then a
100µs wait.  A `commitCall` marker records the invocation and its
arguments. -/
def commitScratch (env : Env) (pin address length : ℕ) (s : S) : S :=
  let s0 := { s with tr := s.tr ++ [Act.commitCall pin address length] }
  let s1 := (resetOp env s0).2
  let s2 := writeByteOp COPYSCRATCH (writeByteOp SKIPROM s1)
  let s3 := writeAddrOp address s2
  let s4 := writeByteOp (endOffset address length) s3
  delayOp 100 s4

/-- Model of `oneShotConvert` (src lines 270-286).  Returns the temperature
as an exact rational: -100 when either reset samples HIGH, otherwise
`readByte / 2.0 - 40.0` for the byte read at the temperature address. -/
def oneShotConvert (env : Env) (pin : ℕ) (s : S) : ℚ × S :=
  let c0 := resetOp env s
  if c0.1 = true then (-100, c0.2)
  else
    let s1 := writeByteOp CONVERTTEMP (writeByteOp SKIPROM c0.2)
    let s2 := delayOp 200 s1
    let c1 := resetOp env s2
    if c1.1 = true then (-100, c1.2)
    else
      let s3 := writeByteOp READMEM (writeByteOp SKIPROM c1.2)
      let s4 := writeAddrOp TEMPADDR s3
      let p := readByteOp env s4
      ((p.1 : ℚ) / 2 - 40, p.2)

/-- Binary-coded-decimal byte built by `setRTC` for the seconds and minutes
fields (src lines 340-350): `lowbyte = (v % 10) & 0x0F; highbyte =
(v / 10) & 0x0F; bcdbyte = (highbyte << 4) | lowbyte;` with each store going
through a uint8_t.  The identical code appears once for `tm_sec` and once
for `tm_min`; it is factored here. -/
def bcdEncode (v : ℕ) : ℕ :=
  let lowbyte := ((v % 10) &&& 0x0F) % 256
  let highbyte := ((v / 10) &&& 0x0F) % 256
  ((highbyte <<< 4) ||| lowbyte) % 256

/-- The hours byte built by `setRTC` (src lines 352-354):
`lowbyte = (tm_hour % 10) & 0x0F; highbyte = (tm_hour > 10) |
((tm_hour > 20) << 1) | (1 << 2); bcdbyte = (highbyte << 4) | lowbyte;`. -/
def rtcHourByte (tm_hour : ℕ) : ℕ :=
  let lowbyte := ((tm_hour % 10) &&& 0x0F) % 256
  let highbyte := ((if 10 < tm_hour then 1 else 0) |||
      ((if 20 < tm_hour then 1 else 0) <<< 1) ||| (1 <<< 2)) % 256
  ((highbyte <<< 4) ||| lowbyte) % 256

/-- The century-flag-plus-month byte built by `setRTC` (src lines 361-363):
`lowbyte = ((tm_mon + 1) % 10) & 0x0F; highbyte = ((tm_mon + 1) / 10) & 0x0F;
bcdbyte = 1 << 7 | (highbyte << 4) | lowbyte;`. -/
def rtcMonthByte (tm_mon : ℕ) : ℕ :=
  let lowbyte := (((tm_mon + 1) % 10) &&& 0x0F) % 256
  let highbyte := (((tm_mon + 1) / 10) &&& 0x0F) % 256
  ((1 <<< 7) ||| (highbyte <<< 4) ||| lowbyte) % 256

/-- The year byte built by `setRTC` (src lines 366-368), from the tm_year
field (years since 1900; nonnegative and at least 100 for any date this
program can observe, where the C int subtraction agrees with ℕ
subtraction): `lowbyte = ((tm_year - 100) % 10) & 0x0F;
highbyte = ((tm_year - 100) / 10) & 0x0F;
bcdbyte = (highbyte << 4) | lowbyte;`. -/
def rtcYearByte (tm_year : ℕ) : ℕ :=
  let lowbyte := (((tm_year - 100) % 10) &&& 0x0F) % 256
  let highbyte := (((tm_year - 100) / 10) &&& 0x0F) % 256
  ((highbyte <<< 4) ||| lowbyte) % 256

/-- Model of `setRTC` (src lines 321-373).  The wall-clock fields obtained
from `localtime` are passed as parameters (all nonnegative, as `localtime`
produces them).  If the initial reset samples HIGH the function prints an
error and returns at once (src lines 329-332).  Otherwise it sends
skip-ROM, write-scratchpad, the RTC start address, then the encoded bytes:
seconds, minutes, hours, weekday + 1, century|month, year — six payload
bytes (the source never writes a day-of-month byte) — and finally runs
`verifyScratch(pin, RTCSECONDS, 7)`, calling `commitScratch(pin,
RTCSECONDS, 7)` exactly when it returned true (src line 371). -/
def setRTC (env : Env) (pin : ℕ)
    (tm_sec tm_min tm_hour tm_wday tm_mon tm_year : ℕ) (s : S) : S :=
  let c := resetOp env s
  if c.1 = true then c.2
  else
    let s1 := writeByteOp WRITESCRATCH (writeByteOp SKIPROM c.2)
    let s2 := writeAddrOp RTCSECONDS s1
    let s3 := writeByteOp (bcdEncode tm_sec) s2
    let s4 := writeByteOp (bcdEncode tm_min) s3
    let s5 := writeByteOp (rtcHourByte tm_hour) s4
    let s6 := writeByteOp ((tm_wday + 1) % 256) s5
    let s7 := writeByteOp (rtcMonthByte tm_mon) s6
    let s8 := writeByteOp (rtcYearByte tm_year) s7
    let v := verifyScratch env pin RTCSECONDS 7 s8
    if v.1 then commitScratch env pin RTCSECONDS 7 v.2
    else v.2

/-- Model of `clearMem` (src lines 375-386).  Note the initial reset's
result is discarded by the source (`reset(pin);` on line 376): the writes
proceed regardless of the presence level. -/
def clearMem (env : Env) (pin : ℕ) (s : S) : S :=
  let s1 := (resetOp env s).2
  let s2 := writeByteOp WRITESCRATCH (writeByteOp SKIPROM s1)
  let s3 := writeAddrOp CONTROLREG s2
  let s4 := writeByteOp ENABLECLR s3
  let v := verifyScratch env pin CONTROLREG 1 s4
  let s5 := if v.1 then commitScratch env pin CONTROLREG 1 v.2 else v.2
  let s6 := (resetOp env s5).2
  let s7 := writeByteOp CLEARMEM (writeByteOp SKIPROM s6)
  (resetOp env s7).2

/-- Model of `missionStart` (src lines 388-401).  As in `clearMem`, the
initial reset's result is discarded (`reset(pin);` on line 389). -/
def missionStart (env : Env) (pin delay creg : ℕ) (s : S) : S :=
  let s1 := (resetOp env s).2
  let s2 := writeByteOp WRITESCRATCH (writeByteOp SKIPROM s1)
  let s3 := writeAddrOp CONTROLREG s2
  let s4 := writeByteOp creg s3
  let s5 := writeByteOp 0x00 (writeByteOp 0x00 (writeByteOp 0x00 s4))
  let s6 := writeAddrOp delay s5
  let v := verifyScratch env pin CONTROLREG 6 s6
  let s7 := if v.1 then commitScratch env pin CONTROLREG 6 v.2 else v.2
  (resetOp env s7).2

/-! ### Trace observations used by the claims -/

/-- The arguments of the `commitScratch` invocations recorded in a trace. -/
def commitCalls (tr : List Act) : List (ℕ × ℕ × ℕ) :=
  tr.filterMap fun a =>
    match a with
    | Act.commitCall p ad l => some (p, ad, l)
    | _ => none

/-- The byte values written on the line in a trace, in order. -/
def bytesWritten (tr : List Act) : List ℕ :=
  tr.filterMap fun a =>
    match a with
    | Act.writeByte b => some b
    | _ => none

/-- An environment with a device always present whose reads return the byte
sequence `l` (0 once `l` is exhausted). -/
def envReads (l : List ℕ) : Env :=
  ⟨fun _ => false, fun k => l.getD k 0⟩

/-- An environment where no device ever answers: every reset samples HIGH. -/
def envAbsent : Env :=
  ⟨fun _ => true, fun _ => 0⟩

/-- The boolean `verifyScratch` computes, as a function of the read counter
at its entry: the read-back address (bytes nb, nb+1, low first) must equal
the requested address and the read-back byte nb+2 the wraparound end
offset. -/
def verifyOutcome (env : Env) (nb address length : ℕ) : Bool :=
  decide ((env.readVal nb % 65536) |||
      (((env.readVal (nb + 1) % 65536) <<< 8) % 65536) = address ∧
    env.readVal (nb + 2) % 256 = endOffset address length)

/-- The actions a `verifyScratch` call appends when entered with reset
counter `nr` and read counter `nb`. -/
def verifyActs (env : Env) (nr nb pin address length : ℕ) : List Act :=
  [Act.reset (env.presence nr), Act.writeByte SKIPROM,
   Act.writeByte READSCRATCH, Act.readByte (env.readVal nb),
   Act.readByte (env.readVal (nb + 1)), Act.readByte (env.readVal (nb + 2)),
   Act.verifyRet pin address length (verifyOutcome env nb address length)]

/-- The actions a `commitScratch` call appends when entered with reset
counter `nr`. -/
def commitActs (env : Env) (nr pin address length : ℕ) : List Act :=
  [Act.commitCall pin address length, Act.reset (env.presence nr),
   Act.writeByte SKIPROM, Act.writeByte COPYSCRATCH,
   Act.writeByte (address &&& 0xFF), Act.writeByte ((address >>> 8) &&& 0xFF),
   Act.writeByte (endOffset address length), Act.delayUs 100]

/-- Refinement target for the temperature decode, modelled from the spec's
words: decoded value = raw/2.0 − 40.0 °C. -/
def tempDecodeSpec (raw : ℚ) : ℚ :=
  raw / 2 - 40

/-! ### Structure lemmas -/

/-- A `verifyScratch` call returns the outcome determined by the three bytes
the environment supplies and appends exactly its seven actions. -/
lemma verifyScratch_eq (env : Env) (pin address length : ℕ) (s : S) :
    verifyScratch env pin address length s =
      (verifyOutcome env s.nb address length,
       ⟨s.nr + 1, s.nb + 3, s.tr ++ verifyActs env s.nr s.nb pin address length⟩) := by
  simp [verifyScratch, verifyOutcome, verifyActs, resetOp, writeByteOp, readByteOp,
    List.append_assoc]

/-- A `commitScratch` call appends exactly its eight actions. -/
lemma commitScratch_eq (env : Env) (pin address length : ℕ) (s : S) :
    commitScratch env pin address length s =
      ⟨s.nr + 1, s.nb, s.tr ++ commitActs env s.nr pin address length⟩ := by
  simp [commitScratch, commitActs, resetOp, writeByteOp, writeAddrOp, delayOp,
    List.append_assoc]

/-! ### Claims -/

/-- C1: In every operation built on the scratchpad transaction (setRTC,
clearMem, missionStart), the trace splits at the single verifyScratch
return: no commitScratch invocation precedes it, the invocations after it
are exactly one with the same pin, address and length when it returned
true, and none at all when the readback verification mismatched (so on
mismatch the commit call count is 0 and nothing is persisted).  For setRTC
the initial reset may also abort the whole operation before any
verification. -/
theorem commit_only_after_successful_verify (env : Env)
    (pin tm_sec tm_min tm_hour tm_wday tm_mon tm_year dly creg : ℕ) :
    ((env.presence 0 = true ∧
        (setRTC env pin tm_sec tm_min tm_hour tm_wday tm_mon tm_year S0).tr =
          [Act.reset true]) ∨
      (∃ ok t₁ t₂,
        (setRTC env pin tm_sec tm_min tm_hour tm_wday tm_mon tm_year S0).tr =
          t₁ ++ Act.verifyRet pin RTCSECONDS 7 ok :: t₂ ∧
        commitCalls t₁ = [] ∧
        commitCalls t₂ = (if ok then [(pin, RTCSECONDS, 7)] else []))) ∧
    (∃ ok t₁ t₂,
      (clearMem env pin S0).tr = t₁ ++ Act.verifyRet pin CONTROLREG 1 ok :: t₂ ∧
      commitCalls t₁ = [] ∧
      commitCalls t₂ = (if ok then [(pin, CONTROLREG, 1)] else [])) ∧
    (∃ ok t₁ t₂,
      (missionStart env pin dly creg S0).tr =
        t₁ ++ Act.verifyRet pin CONTROLREG 6 ok :: t₂ ∧
      commitCalls t₁ = [] ∧
      commitCalls t₂ = (if ok then [(pin, CONTROLREG, 6)] else [])) := by
  refine ⟨?_, ?_, ?_⟩
  · cases hp : env.presence 0 with
    | true =>
        left
        exact ⟨rfl, by simp [setRTC, resetOp, S0, hp]⟩
    | false =>
        right
        cases hv : verifyOutcome env 0 RTCSECONDS 7 with
        | false =>
            refine ⟨false,
              [Act.reset false, Act.writeByte SKIPROM, Act.writeByte WRITESCRATCH,
               Act.writeByte (RTCSECONDS &&& 0xFF),
               Act.writeByte ((RTCSECONDS >>> 8) &&& 0xFF),
               Act.writeByte (bcdEncode tm_sec), Act.writeByte (bcdEncode tm_min),
               Act.writeByte (rtcHourByte tm_hour),
               Act.writeByte ((tm_wday + 1) % 256),
               Act.writeByte (rtcMonthByte tm_mon),
               Act.writeByte (rtcYearByte tm_year), Act.reset (env.presence 1),
               Act.writeByte SKIPROM, Act.writeByte READSCRATCH,
               Act.readByte (env.readVal 0), Act.readByte (env.readVal 1),
               Act.readByte (env.readVal 2)],
              [], ?_, rfl, rfl⟩
            simp [setRTC, verifyScratch_eq, resetOp, writeByteOp, writeAddrOp,
              S0, hp, hv, verifyActs, List.append_assoc]
        | true =>
            refine ⟨true,
              [Act.reset false, Act.writeByte SKIPROM, Act.writeByte WRITESCRATCH,
               Act.writeByte (RTCSECONDS &&& 0xFF),
               Act.writeByte ((RTCSECONDS >>> 8) &&& 0xFF),
               Act.writeByte (bcdEncode tm_sec), Act.writeByte (bcdEncode tm_min),
               Act.writeByte (rtcHourByte tm_hour),
               Act.writeByte ((tm_wday + 1) % 256),
               Act.writeByte (rtcMonthByte tm_mon),
               Act.writeByte (rtcYearByte tm_year), Act.reset (env.presence 1),
               Act.writeByte SKIPROM, Act.writeByte READSCRATCH,
               Act.readByte (env.readVal 0), Act.readByte (env.readVal 1),
               Act.readByte (env.readVal 2)],
              commitActs env 2 pin RTCSECONDS 7, ?_, rfl, rfl⟩
            simp [setRTC, verifyScratch_eq, commitScratch_eq, resetOp, writeByteOp,
              writeAddrOp, S0, hp, hv, verifyActs, commitActs, List.append_assoc]
  · cases hv : verifyOutcome env 0 CONTROLREG 1 with
    | false =>
        refine ⟨false,
          [Act.reset (env.presence 0), Act.writeByte SKIPROM,
           Act.writeByte WRITESCRATCH, Act.writeByte (CONTROLREG &&& 0xFF),
           Act.writeByte ((CONTROLREG >>> 8) &&& 0xFF), Act.writeByte ENABLECLR,
           Act.reset (env.presence 1), Act.writeByte SKIPROM,
           Act.writeByte READSCRATCH, Act.readByte (env.readVal 0),
           Act.readByte (env.readVal 1), Act.readByte (env.readVal 2)],
          [Act.reset (env.presence 2), Act.writeByte SKIPROM,
           Act.writeByte CLEARMEM, Act.reset (env.presence 3)], ?_, rfl, rfl⟩
        simp [clearMem, verifyScratch_eq, resetOp, writeByteOp,
          writeAddrOp, S0, hv, verifyActs, List.append_assoc]
    | true =>
        refine ⟨true,
          [Act.reset (env.presence 0), Act.writeByte SKIPROM,
           Act.writeByte WRITESCRATCH, Act.writeByte (CONTROLREG &&& 0xFF),
           Act.writeByte ((CONTROLREG >>> 8) &&& 0xFF), Act.writeByte ENABLECLR,
           Act.reset (env.presence 1), Act.writeByte SKIPROM,
           Act.writeByte READSCRATCH, Act.readByte (env.readVal 0),
           Act.readByte (env.readVal 1), Act.readByte (env.readVal 2)],
          commitActs env 2 pin CONTROLREG 1 ++
            [Act.reset (env.presence 3), Act.writeByte SKIPROM,
             Act.writeByte CLEARMEM, Act.reset (env.presence 4)], ?_, rfl, rfl⟩
        simp [clearMem, verifyScratch_eq, commitScratch_eq, resetOp, writeByteOp,
          writeAddrOp, S0, hv, verifyActs, commitActs, List.append_assoc]
  · cases hv : verifyOutcome env 0 CONTROLREG 6 with
    | false =>
        refine ⟨false,
          [Act.reset (env.presence 0), Act.writeByte SKIPROM,
           Act.writeByte WRITESCRATCH, Act.writeByte (CONTROLREG &&& 0xFF),
           Act.writeByte ((CONTROLREG >>> 8) &&& 0xFF), Act.writeByte creg,
           Act.writeByte 0x00, Act.writeByte 0x00, Act.writeByte 0x00,
           Act.writeByte (dly &&& 0xFF), Act.writeByte ((dly >>> 8) &&& 0xFF),
           Act.reset (env.presence 1), Act.writeByte SKIPROM,
           Act.writeByte READSCRATCH, Act.readByte (env.readVal 0),
           Act.readByte (env.readVal 1), Act.readByte (env.readVal 2)],
          [Act.reset (env.presence 2)], ?_, rfl, rfl⟩
        simp [missionStart, verifyScratch_eq, resetOp, writeByteOp,
          writeAddrOp, S0, hv, verifyActs, List.append_assoc]
    | true =>
        refine ⟨true,
          [Act.reset (env.presence 0), Act.writeByte SKIPROM,
           Act.writeByte WRITESCRATCH, Act.writeByte (CONTROLREG &&& 0xFF),
           Act.writeByte ((CONTROLREG >>> 8) &&& 0xFF), Act.writeByte creg,
           Act.writeByte 0x00, Act.writeByte 0x00, Act.writeByte 0x00,
           Act.writeByte (dly &&& 0xFF), Act.writeByte ((dly >>> 8) &&& 0xFF),
           Act.reset (env.presence 1), Act.writeByte SKIPROM,
           Act.writeByte READSCRATCH, Act.readByte (env.readVal 0),
           Act.readByte (env.readVal 1), Act.readByte (env.readVal 2)],
          commitActs env 2 pin CONTROLREG 6 ++ [Act.reset (env.presence 3)],
          ?_, rfl, rfl⟩
        simp [missionStart, verifyScratch_eq, commitScratch_eq, resetOp, writeByteOp,
          writeAddrOp, S0, hv, verifyActs, commitActs, List.append_assoc]

/-- C2 counterexample: with no device on the line (every reset samples
HIGH), clearMem nevertheless goes on writing — its trace carries nine byte
writes after the failed initial reset — so it is false that every dependent
operation aborts with no further line writes on a HIGH presence sample. -/
theorem clearMem_writes_despite_absent_device :
    envAbsent.presence 0 = true ∧
    bytesWritten (clearMem envAbsent 0 S0).tr =
      [SKIPROM, WRITESCRATCH, 0x0E, 0x02, ENABLECLR, SKIPROM, READSCRATCH,
       SKIPROM, CLEARMEM] := by
  exact ⟨rfl, by decide⟩

/-- C2 amended: if the initial reset samples HIGH, oneShotConvert returns
the sentinel −100 with no further line activity and setRTC returns with no
further line activity; clearMem and missionStart, however, discard the
initial reset's result and keep writing on the line. -/
theorem presence_failure_abort_behaviour (env : Env)
    (pin tm_sec tm_min tm_hour tm_wday tm_mon tm_year dly creg : ℕ)
    (hp : env.presence 0 = true) :
    (oneShotConvert env pin S0).1 = -100 ∧
    (oneShotConvert env pin S0).2.tr = [Act.reset true] ∧
    (setRTC env pin tm_sec tm_min tm_hour tm_wday tm_mon tm_year S0).tr =
      [Act.reset true] ∧
    Act.writeByte WRITESCRATCH ∈ (clearMem env pin S0).tr ∧
    Act.writeByte WRITESCRATCH ∈ (missionStart env pin dly creg S0).tr := by
  refine ⟨?_, ?_, ?_, ?_, ?_⟩
  · simp [oneShotConvert, resetOp, S0, hp]
  · simp [oneShotConvert, resetOp, S0, hp]
  · simp [setRTC, resetOp, S0, hp]
  · cases hv : verifyOutcome env 0 CONTROLREG 1 <;>
      simp [clearMem, verifyScratch_eq, commitScratch_eq, resetOp, writeByteOp,
        writeAddrOp, S0, verifyActs, commitActs, hv, List.append_assoc,
        SKIPROM, WRITESCRATCH, READSCRATCH, CLEARMEM, COPYSCRATCH, ENABLECLR]
  · cases hv : verifyOutcome env 0 CONTROLREG 6 <;>
      simp [missionStart, verifyScratch_eq, commitScratch_eq, resetOp, writeByteOp,
        writeAddrOp, S0, verifyActs, commitActs, hv, List.append_assoc,
        SKIPROM, WRITESCRATCH, READSCRATCH, COPYSCRATCH]

/-- C2 witness: the amended behaviour at a concrete absent-device
environment. -/
theorem presence_failure_abort_behaviour_witness :
    (oneShotConvert envAbsent 0 S0).1 = -100 ∧
    (setRTC envAbsent 0 45 59 13 2 9 121 S0).tr = [Act.reset true] := by
  have h := presence_failure_abort_behaviour envAbsent 0 45 59 13 2 9 121 0 0 rfl
  exact ⟨h.1, h.2.2.1⟩

/-- C3 counterexample: the request address 0x0200 with length 33 crosses
the 32-byte page boundary ((0x0200 & 0x1F) + 33 − 1 = 32 > 0x1F), yet
commitScratch still sends its five bytes (the wrapped end offset 0x20
included) and verifyScratch still sends its two command bytes: no
validation rejects the transaction before bytes go on the line. -/
theorem page_crossing_transaction_still_sends_bytes :
    (0x0200 &&& 0x1F) + 33 - 1 > 0x1F ∧
    bytesWritten (commitScratch (envReads []) 0 0x0200 33 S0).tr =
      [SKIPROM, COPYSCRATCH, 0x00, 0x02, 0x20] ∧
    bytesWritten (verifyScratch (envReads []) 0 0x0200 33 S0).2.tr =
      [SKIPROM, READSCRATCH] := by
  exact ⟨by decide, by decide, by decide⟩

/-- C3 amended: the source performs no page-boundary validation at all —
for every transaction whose payload would cross the 32-byte page boundary,
commitScratch still transmits skip-ROM, copy-scratchpad, both address bytes
and the (wrapped-around) end offset, and verifyScratch still transmits its
two command bytes. -/
theorem no_page_boundary_validation (env : Env) (pin address length : ℕ)
    (hcross : (address &&& 0x1F) + length - 1 > 0x1F) :
    bytesWritten (commitScratch env pin address length S0).tr =
      [SKIPROM, COPYSCRATCH, address &&& 0xFF, (address >>> 8) &&& 0xFF,
       endOffset address length] ∧
    bytesWritten (verifyScratch env pin address length S0).2.tr =
      [SKIPROM, READSCRATCH] := by
  constructor
  · simp [commitScratch_eq, commitActs, bytesWritten, S0]
  · simp [verifyScratch_eq, verifyActs, bytesWritten, S0]

/-- C3 witness: the amended statement at the concrete crossing request
(address 0x0200, length 33). -/
theorem no_page_boundary_validation_witness :
    bytesWritten (commitScratch (envReads []) 1 0x0200 33 S0).tr =
      [SKIPROM, COPYSCRATCH, 0x0200 &&& 0xFF, (0x0200 >>> 8) &&& 0xFF,
       endOffset 0x0200 33] :=
  (no_page_boundary_validation (envReads []) 1 0x0200 33 (by decide)).1

/-- C4 counterexample: at address 0, length 0, a device answering with
address bytes 0, 0 and end-offset byte 255 makes verifyScratch return true,
although the read-back end-offset byte 255 differs from the claim's
expected value (address & 0x1F) + length − 1 = −1: the stated equivalence
fails because the source computes the end offset in 8-bit wraparound
arithmetic, not in the integers. -/
theorem verify_true_despite_integer_mismatch :
    (verifyScratch (envReads [0, 0, 255]) 0 0 0 S0).1 = true ∧
    ((envReads [0, 0, 255]).readVal 2 : ℤ) ≠
      (((0 &&& 0x1F : ℕ) : ℤ) + 0 - 1 : ℤ) := by
  exact ⟨by decide, by decide⟩

/-- C4 amended: verifyScratch returns true iff the address read back (two
bytes, low first, through uint16_t conversions) equals the requested
address and the end-offset byte read back equals
((address & 0x1F) + length − 1) mod 256, the 8-bit wraparound of the
claim's formula; in particular for address 0x0200 and length 7 the
expected end offset is 0x06. -/
theorem verifyScratch_iff (env : Env) (pin address length : ℕ) (s : S) :
    ((verifyScratch env pin address length s).1 = true ↔
      ((env.readVal s.nb % 65536) |||
          (((env.readVal (s.nb + 1) % 65536) <<< 8) % 65536) = address ∧
        env.readVal (s.nb + 2) % 256 =
          ((address &&& 0x1F) + length + 255) % 256)) ∧
    endOffset 0x0200 7 = 0x06 := by
  constructor
  · rw [verifyScratch_eq]
    simp [verifyOutcome, endOffset]
  · decide

set_option maxRecDepth 8192

/-- C5: at a concrete present device and the wall-clock time
2021-10-03 13:45:59 (tm_sec 45, tm_min 59, tm_hour 13, tm_wday 2,
tm_mon 9, tm_year 121), the bytes setRTC writes before its verify stage
are the two commands, the two address bytes, and then only SIX payload
bytes — 0x45 seconds, 0x59 minutes, 0x53 hours, 0x03 weekday, 0x90
century|month, 0x21 year; no day-of-month byte is ever written — followed
immediately by the verify commands, while the verification is nevertheless
invoked with length 7. -/
theorem setRTC_writes_six_payload_bytes :
    bytesWritten (setRTC (envReads [0, 0, 0]) 0 45 59 13 2 9 121 S0).tr =
      [SKIPROM, WRITESCRATCH, 0x00, 0x02,
       0x45, 0x59, 0x53, 0x03, 0x90, 0x21,
       SKIPROM, READSCRATCH] ∧
    Act.verifyRet 0 RTCSECONDS 7 false ∈
      (setRTC (envReads [0, 0, 0]) 0 45 59 13 2 9 121 S0).tr := by
  exact ⟨by decide, by decide⟩

/-- C6: reading a byte from a loop-back peer that replays the exact bit
sequence writeByte produced returns the original value, for every byte
value below 256; both transfers are least-significant-bit first. -/
theorem writeByte_readByte_roundtrip :
    ∀ byte : ℕ, byte < 256 →
      readByteFun (fun i => (writeByteBits byte).getD i 0) = byte := by
  decide

/-- C6 witness: the round trip at the concrete byte 0xA7. -/
theorem writeByte_readByte_roundtrip_witness :
    readByteFun (fun i => (writeByteBits 0xA7).getD i 0) = 0xA7 :=
  writeByte_readByte_roundtrip 0xA7 (by decide)

/-- C7: when both resets see a present device, the temperature
oneShotConvert returns is exactly the pure decode raw/2 − 40 applied to
the byte read back after addressing 0x0211 (address bytes 0x11 then 0x02
on the wire), and that decode sends 0x00 to −40.0, 0x50 to 0.0 and 0xFF
to 87.5. -/
theorem oneShotConvert_decode (env : Env) (pin : ℕ)
    (h0 : env.presence 0 = false) (h1 : env.presence 1 = false) :
    (oneShotConvert env pin S0).1 = tempDecodeSpec (env.readVal 0 : ℕ) ∧
    (oneShotConvert env pin S0).2.tr =
      [Act.reset false, Act.writeByte SKIPROM, Act.writeByte CONVERTTEMP,
       Act.delayUs 200, Act.reset false, Act.writeByte SKIPROM,
       Act.writeByte READMEM, Act.writeByte 0x11, Act.writeByte 0x02,
       Act.readByte (env.readVal 0)] ∧
    tempDecodeSpec 0x00 = -40 ∧ tempDecodeSpec 0x50 = 0 ∧
    tempDecodeSpec 0xFF = 87.5 := by
  refine ⟨?_, ?_, by norm_num [tempDecodeSpec], by norm_num [tempDecodeSpec],
    by norm_num [tempDecodeSpec]⟩
  · simp [oneShotConvert, resetOp, writeByteOp, readByteOp, delayOp, writeAddrOp,
      S0, h0, h1, tempDecodeSpec]
  · simp [oneShotConvert, resetOp, writeByteOp, readByteOp, delayOp,
      writeAddrOp, S0, h0, h1, TEMPADDR]
    decide

/-- C7 witness: the decode equation at a concrete device returning the raw
byte 0x50. -/
theorem oneShotConvert_decode_witness :
    (oneShotConvert (envReads [0x50]) 0 S0).1 =
      tempDecodeSpec ((envReads [0x50]).readVal 0 : ℕ) :=
  (oneShotConvert_decode (envReads [0x50]) 0 rfl rfl).1

/-- C8: the binary-coded-decimal encoding setRTC uses for the seconds and
minutes fields packs a two-digit value as (tens << 4) | units; in
particular 45 encodes to 0x45 and 59 to 0x59, for all field values below
60. -/
theorem bcdEncode_packs_digits :
    ∀ sec mi : ℕ, sec < 60 → mi < 60 →
      bcdEncode sec = ((sec / 10) <<< 4) ||| (sec % 10) ∧
      bcdEncode mi = ((mi / 10) <<< 4) ||| (mi % 10) ∧
      bcdEncode 45 = 0x45 ∧ bcdEncode 59 = 0x59 := by
  have aux : ∀ v : ℕ, v < 60 →
      bcdEncode v = ((v / 10) <<< 4) ||| (v % 10) := by decide
  exact fun sec mi hs hm => ⟨aux sec hs, aux mi hm, by decide, by decide⟩

/-- C8 witness: the packing at the concrete values 45 and 59. -/
theorem bcdEncode_packs_digits_witness :
    bcdEncode 45 = ((45 / 10) <<< 4) ||| (45 % 10) ∧
    bcdEncode 59 = ((59 / 10) <<< 4) ||| (59 % 10) := by
  have h := bcdEncode_packs_digits 45 59 (by decide) (by decide)
  exact ⟨h.1, h.2.1⟩

/-- C9: in writeBit, the low phase for bit 1 (10µs) is strictly shorter
than its high phase (55µs), the low phase for bit 0 (65µs) is strictly
longer than its high phase (5µs), and both slots last at least 60µs in
total. -/
theorem writeBit_slot_timing :
    (writeBitDelays 1).1 < (writeBitDelays 1).2 ∧
    (writeBitDelays 0).2 < (writeBitDelays 0).1 ∧
    60 ≤ (writeBitDelays 1).1 + (writeBitDelays 1).2 ∧
    60 ≤ (writeBitDelays 0).1 + (writeBitDelays 0).2 := by
  decide

/-- C10: oneShotConvert returns either exactly the sentinel −100 or a
value between −40.0 and 87.5 whenever the byte the environment supplies is
an 8-bit value, and readByte does always assemble an 8-bit value whenever
every underlying readBit result is 0 or 1 — so the sentinel can never
collide with a genuine decoded reading. -/
theorem oneShotConvert_range :
    (∀ env : Env, ∀ pin : ℕ, env.readVal 0 < 256 →
      (oneShotConvert env pin S0).1 = -100 ∨
      (-40 ≤ (oneShotConvert env pin S0).1 ∧
        (oneShotConvert env pin S0).1 ≤ 87.5)) ∧
    (∀ f : ℕ → ℕ, (∀ i, f i ≤ 1) → readByteFun f < 256) := by
  constructor
  · intro env pin hv
    have hle : ((env.readVal 0 : ℕ) : ℚ) ≤ 255 := by
      exact_mod_cast Nat.lt_succ_iff.mp hv
    have hge : (0 : ℚ) ≤ ((env.readVal 0 : ℕ) : ℚ) := by positivity
    have h875 : (87.5 : ℚ) = 175 / 2 := by norm_num
    cases h0 : env.presence 0 with
    | true => exact Or.inl (by simp [oneShotConvert, resetOp, S0, h0])
    | false =>
        cases h1 : env.presence 1 with
        | true =>
            exact Or.inl (by
              simp [oneShotConvert, resetOp, writeByteOp, delayOp, S0, h0, h1])
        | false =>
            refine Or.inr ?_
            have heq : (oneShotConvert env pin S0).1 =
                ((env.readVal 0 : ℕ) : ℚ) / 2 - 40 := by
              simp [oneShotConvert, resetOp, writeByteOp, readByteOp, delayOp,
                writeAddrOp, S0, h0, h1]
            rw [heq, h875]
            constructor <;> linarith
  · intro f hf
    have hb : ∀ i, i < 8 → f i <<< i < 256 := by
      intro i hi
      rw [Nat.shiftLeft_eq]
      have h1 : f i * 2 ^ i ≤ 1 * 2 ^ i := Nat.mul_le_mul_right _ (hf i)
      have h2 : (2 : ℕ) ^ i ≤ 2 ^ 7 := Nat.pow_le_pow_right (by norm_num) (by omega)
      simp only [one_mul] at h1
      calc f i * 2 ^ i ≤ 2 ^ i := h1
        _ ≤ 2 ^ 7 := h2
        _ < 256 := by norm_num
    have hrange : List.range 8 = [0, 1, 2, 3, 4, 5, 6, 7] := by decide
    have h256 : (256 : ℕ) = 2 ^ 8 := by norm_num
    rw [readByteFun, hrange]
    simp only [List.foldl]
    rw [h256]
    refine Nat.or_lt_two_pow ?_ (h256 ▸ hb 7 (by norm_num))
    refine Nat.or_lt_two_pow ?_ (h256 ▸ hb 6 (by norm_num))
    refine Nat.or_lt_two_pow ?_ (h256 ▸ hb 5 (by norm_num))
    refine Nat.or_lt_two_pow ?_ (h256 ▸ hb 4 (by norm_num))
    refine Nat.or_lt_two_pow ?_ (h256 ▸ hb 3 (by norm_num))
    refine Nat.or_lt_two_pow ?_ (h256 ▸ hb 2 (by norm_num))
    refine Nat.or_lt_two_pow ?_ (h256 ▸ hb 1 (by norm_num))
    refine Nat.or_lt_two_pow (by norm_num) (h256 ▸ hb 0 (by norm_num))

end DS1921
